import Mathlib

/-!
Shallow embedding of the Vita3K shader-recompiler core
(src/emulator/shader/include/shader/types.h and
src/emulator/shader/src/spirv_recompiler.cpp), together with theorems
settling the specification claims about it.

Machine integers are modelled as `Nat` with an explicit `% 2^w` wherever
the C++ unsigned wraparound can matter (the `uint32_t next_offset`
accumulator of `SpirvVarRegBank`, the `size_t` arithmetic in
`create_parameters`).
-/

namespace USSE

/-- `SwizzleChannel` from types.h (source constructor names `_X`, `_Y`, `_Z`,
`_W`, `_0` (zero), `_1` (one), `_2` (two), `_H` (half), `_UNDEFINED`). -/
inductive SwizzleChannel where
  | X | Y | Z | W
  | zero | one | two | half
  | UNDEFINED
deriving DecidableEq, Repr, Fintype

/-- `Swizzle<3> = std::array<SwizzleChannel, 3>` from types.h. -/
structure Swizzle3 where
  c0 : SwizzleChannel
  c1 : SwizzleChannel
  c2 : SwizzleChannel
deriving DecidableEq, Repr

/-- `Swizzle<4> = std::array<SwizzleChannel, 4>` from types.h. -/
structure Swizzle4 where
  c0 : SwizzleChannel
  c1 : SwizzleChannel
  c2 : SwizzleChannel
  c3 : SwizzleChannel
deriving DecidableEq, Repr, Fintype

/-- `sw[i]` on a `Swizzle4` (indices 0..3; out-of-range reads never occur in
the embedded code, they return `UNDEFINED` here). -/
def Swizzle4.get (sw : Swizzle4) : Nat → SwizzleChannel
  | 0 => sw.c0
  | 1 => sw.c1
  | 2 => sw.c2
  | 3 => sw.c3
  | _ => SwizzleChannel.UNDEFINED

/-- The identity selection for channel position `i`: X, Y, Z, W. -/
def identityChannel : Nat → SwizzleChannel
  | 0 => SwizzleChannel.X
  | 1 => SwizzleChannel.Y
  | 2 => SwizzleChannel.Z
  | 3 => SwizzleChannel.W
  | _ => SwizzleChannel.UNDEFINED

/-- types.h `to_swizzle4`: widen a 3-channel swizzle, appending `_X`. -/
def to_swizzle4 (sw : Swizzle3) : Swizzle4 :=
  { c0 := sw.c0, c1 := sw.c1, c2 := sw.c2, c3 := SwizzleChannel.X }

/-- Body of `case 1:` of `is_default` (check of `sw[0]` against `_X`),
run on the accumulated `res`; the switch then returns. -/
def is_default_case1 (sw : Swizzle4) (res : Bool) : Bool :=
  if sw.c0 ≠ SwizzleChannel.X then false else res

/-- Body of `case 2:` of `is_default`, then fallthrough into `case 1:`. -/
def is_default_case2 (sw : Swizzle4) (res : Bool) : Bool :=
  is_default_case1 sw (if sw.c1 ≠ SwizzleChannel.Y then false else res)

/-- Body of `case 3:` of `is_default`, then fallthrough into `case 2:`. -/
def is_default_case3 (sw : Swizzle4) (res : Bool) : Bool :=
  is_default_case2 sw (if sw.c2 ≠ SwizzleChannel.Z then false else res)

/-- Body of `case 4:` of `is_default`, then fallthrough into `case 3:`. -/
def is_default_case4 (sw : Swizzle4) (res : Bool) : Bool :=
  is_default_case3 sw (if sw.c3 ≠ SwizzleChannel.W then false else res)

/-- types.h `is_default(Swizzle4 sw, Imm4 sw_len)`: `res` starts `true`;
the switch enters at the matching case and falls through all lower cases,
each mismatch forcing `res` to `false`; an `sw_len` matching no case leaves
`res` untouched.  (`Imm4` is a `uint8_t` typedef; modelled as `Nat`.) -/
def is_default (sw : Swizzle4) (sw_len : Nat) : Bool :=
  match sw_len with
  | 4 => is_default_case4 sw true
  | 3 => is_default_case3 sw true
  | 2 => is_default_case2 sw true
  | 1 => is_default_case1 sw true
  | _ => true

/-- `RegisterBank` from types.h. -/
inductive RegisterBank where
  | TEMP | PRIMATTR | OUTPUT | SECATTR | FPINTERNAL
  | SPECIAL | GLOBAL | FPCONSTANT | IMMEDIATE | INDEX | INDEXED
  | MAXIMUM | INVALID
deriving DecidableEq, Repr

end USSE

namespace shader

/-- SPIR-V type ids, modelled as the types themselves.  `spv::Builder`
deduplicates non-aggregate types (two `makeVectorType(float32, 4)` calls
return the same id), which equality of these values reflects.
`structT` carries the struct name and field type list of
`makeStructType`; `image` and `sampledImage` stand for the fixed calls in
`create_param_sampler`. -/
inductive SpvType where
  | float (width : Nat)
  | uint (width : Nat)
  | int (width : Nat)
  | vector (component : SpvType) (count : Nat)
  | matrix (component : SpvType) (cols rows : Nat)
  | image (sampled : SpvType)
  | sampledImage (base : SpvType)
  | structT (name : String) (fields : List SpvType)
deriving Repr

/-- `spv::StorageClass`, restricted to the classes
`reg_type_to_spv_storage_class` can produce (`Max` = `StorageClassMax`). -/
inductive StorageClass where
  | Function | Input | Output | UniformConstant | Private | Max
deriving DecidableEq, Repr

/-- The decorations `create_parameters` and its helpers attach. -/
inductive Decoration where
  | Block
  | BuiltInPosition
  | Location (slot : Nat)
deriving Repr

/-- Log severities of the diagnostics channel (util/log.h macros). -/
inductive Severity where
  | Debug | Info | Warn | Error | Critical
deriving DecidableEq, Repr

/-- One emitted diagnostic. -/
structure LogMsg where
  severity : Severity
  text : String
deriving Repr

/-- The slice of `spv::Builder` state the allocator mutates: a fresh-id
counter for `createVariable`, the module's variable declarations
(id, name, storage class, type) in creation order, the attached
decorations, and the member names attached via `addMemberName`. -/
structure Builder where
  nextId : Nat
  varDecls : List (Nat × String × StorageClass × SpvType)
  decorations : List (Nat × Decoration)
  typeDecorations : List (SpvType × Decoration)
  memberNames : List (SpvType × Nat × String)
deriving Repr

/-- A fresh builder (ids start at 1; `spv::NoResult` is 0). -/
def Builder.init : Builder :=
  { nextId := 1, varDecls := [], decorations := [], typeDecorations := [],
    memberNames := [] }

/-- `b.createVariable(storage_class, type, name)`: declares a module
variable and returns its fresh id. -/
def Builder.createVariable (b : Builder) (sc : StorageClass) (t : SpvType)
    (name : String) : Builder × Nat :=
  ({ b with
      nextId := b.nextId + 1
      varDecls := b.varDecls ++ [(b.nextId, name, sc, t)] }, b.nextId)

/-- `b.addDecoration(id, decoration[, extra])`. -/
def Builder.addDecoration (b : Builder) (id : Nat) (d : Decoration) : Builder :=
  { b with decorations := b.decorations ++ [(id, d)] }

/-- `b.addMemberName(struct_type, index, name)`. -/
def Builder.addMemberName (b : Builder) (t : SpvType) (idx : Nat)
    (name : String) : Builder :=
  { b with memberNames := b.memberNames ++ [(t, idx, name)] }

/-- `shader::SpirvVar` from types.h. -/
structure SpirvVar where
  type_id : SpvType
  var_id : Nat
deriving Repr

/-- `shader::SpirvReg` from types.h (`offset`/`size` are `uint32_t`). -/
structure SpirvReg where
  type_id : SpvType
  var_id : Nat
  offset : Nat
  size : Nat
deriving Repr

/-- `shader::SpirvVarRegBank` from types.h: the record list plus the
`uint32_t next_offset` accumulator. -/
structure SpirvVarRegBank where
  vars : List SpirvReg
  next_offset : Nat
deriving Repr

/-- The default-constructed empty bank. -/
def SpirvVarRegBank.empty : SpirvVarRegBank :=
  { vars := [], next_offset := 0 }

/-- `SpirvVarRegBank::push(var, size)`: appends a record at the current
`next_offset` and advances it by `size` with `uint32_t` wraparound. -/
def SpirvVarRegBank.push (bank : SpirvVarRegBank) (var : SpirvVar)
    (size : Nat) : SpirvVarRegBank :=
  { vars := bank.vars ++ [{ type_id := var.type_id, var_id := var.var_id,
                            offset := bank.next_offset, size := size }]
    next_offset := (bank.next_offset + size) % 2 ^ 32 }

/-- `SpirvVarRegBank::find_reg_at(index, out_reg, out_comp_offset)`:
scans the records in order for the first with
`index >= offset && index < offset + size` (the sum in `uint32_t`
arithmetic) and returns it with the in-record component offset; the C++
bool-with-out-params result is an `Option` here. -/
def SpirvVarRegBank.find_reg_at (bank : SpirvVarRegBank) (index : Nat) :
    Option (SpirvReg × Nat) :=
  go bank.vars
where
  /-- The range-based `for` loop over `vars`. -/
  go : List SpirvReg → Option (SpirvReg × Nat)
    | [] => none
    | var :: rest =>
      if index ≥ var.offset ∧ index < (var.offset + var.size) % 2 ^ 32 then
        some (var, index - var.offset)
      else
        go rest

/-- `SpirvVarRegBank::size()`: sums the record sizes into a `size_t`. -/
def SpirvVarRegBank.size (bank : SpirvVarRegBank) : Nat :=
  (bank.vars.foldl (fun acc var => acc + var.size) 0) % 2 ^ 64

/-- `shader::SpirvShaderParameters` from types.h. -/
structure SpirvShaderParameters where
  ins : SpirvVarRegBank
  uniforms : SpirvVarRegBank
  temps : SpirvVarRegBank
  internals : SpirvVarRegBank
  outs : SpirvVarRegBank
  structs : SpirvVarRegBank
deriving Repr

/-- `SpirvShaderParameters spv_params = {}` — all banks empty. -/
def SpirvShaderParameters.empty : SpirvShaderParameters :=
  { ins := SpirvVarRegBank.empty, uniforms := SpirvVarRegBank.empty,
    temps := SpirvVarRegBank.empty, internals := SpirvVarRegBank.empty,
    outs := SpirvVarRegBank.empty, structs := SpirvVarRegBank.empty }

end shader

namespace shader

/-- `SCE_GXM_PARAMETER_CATEGORY_*` as used by `create_parameters`
(`other` stands for any further value, hitting the `default:` case). -/
inductive ParameterCategory where
  | Attribute | Uniform | Sampler | AuxiliarySurface | UniformBuffer | Other
deriving DecidableEq, Repr

/-- `SceGxmParameterType` element-type tags as consumed by
`get_type_basic` (`Other` stands for any tag outside its switch). -/
inductive SceGxmParameterType where
  | F16 | F32 | U8 | U16 | U32 | S8 | S16 | S32 | Other
deriving DecidableEq, Repr

/-- `gxp::GenericParameterType` as consumed by `get_param_type`. -/
inductive GenericParameterType where
  | Scalar | Vector | Matrix | Other
deriving DecidableEq, Repr

/-- `emu::SceGxmProgramType`: stage kind (vertex / fragment / other). -/
inductive SceGxmProgramType where
  | Vertex | Fragment | Other
deriving DecidableEq, Repr

/-- Modelled from the spec: `SceGxmProgramParameter` descriptors are an
external, already-validated input (the gxp container parser is out of
scope); the descriptor carries category, component count, array size, the
raw semantic name and the element-type metadata that
`gxp::parameter_type` / `gxp::parameter_generic_type` expose. -/
structure SceGxmProgramParameter where
  category : ParameterCategory
  name_raw : String
  component_count : Nat
  array_size : Nat
  param_type : SceGxmParameterType
  generic_type : GenericParameterType
deriving Repr

/-- Modelled from the spec: the read-only `SceGxmProgram` descriptor —
stage kind (`get_type`), parameter table (`gxp::program_parameters` with
`parameter_count`), register counts, the native-color flag
(`is_native_color`) and the active vertex-output / fragment-input
semantic bitmasks (`gxp::get_vertex_outputs` / `gxp::get_fragment_inputs`,
bit k = k-th semantic in table order, bit 0 = position). -/
structure SceGxmProgram where
  program_type : SceGxmProgramType
  parameters : List SceGxmProgramParameter
  temp_reg_count1 : Nat
  primary_reg_count : Nat
  native_color : Bool
  vertex_outputs : Nat
  fragment_inputs : Nat
deriving Repr

/-- `gxp::parameter_name_raw`: the descriptor's full semantic name. -/
def parameter_name_raw (p : SceGxmProgramParameter) : String :=
  p.name_raw

/-- Split a character list at its first `'.'`: `some (before, after)`,
or `none` when there is no dot. -/
def splitAtDot : List Char → Option (List Char × List Char)
  | [] => none
  | c :: rest =>
    if c = '.' then some ([], rest)
    else (splitAtDot rest).map (fun q => (c :: q.1, q.2))

/-- Modelled from the spec: `gxp::parameter_struct_name` — the
struct-qualifying prefix of the dotted-name convention (text before the
dot), empty when the name carries no dot. -/
def parameter_struct_name (p : SceGxmProgramParameter) : String :=
  match splitAtDot p.name_raw.data with
  | some q => String.mk q.1
  | none => ""

/-- Modelled from the spec: `gxp::parameter_name` — the field name after
the struct-qualifying dot, or the whole name when there is no dot. -/
def parameter_name (p : SceGxmProgramParameter) : String :=
  match splitAtDot p.name_raw.data with
  | some q => String.mk q.2
  | none => p.name_raw

/-- The scan of the `std::unique` pass of `sanitize_variable_name`:
drops each character equivalent to the last kept one under the predicate
`c1 == c2 && c2 == '_'` (i.e. both are `'_'`). -/
def sanitizeTail (prev : Char) : List Char → List Char
  | [] => []
  | c :: rest =>
    if prev = '_' ∧ c = '_' then sanitizeTail prev rest
    else c :: sanitizeTail c rest

/-- The `std::unique` pass of `sanitize_variable_name`: of every run of
consecutive `'_'` characters only the first is kept (the first element is
always kept; each later element is compared against the last kept
one — for this predicate that agrees with comparing adjacent
elements). -/
def sanitizeChars : List Char → List Char
  | [] => []
  | c :: rest => c :: sanitizeTail c rest

/-- spirv_recompiler.cpp `sanitize_variable_name`: erase consecutive
occurrences of `'_'`. -/
def sanitize_variable_name (var_name : String) : String :=
  String.mk (sanitizeChars var_name.data)

/-- spirv_recompiler.cpp `reg_type_to_spv_storage_class`; the second
component carries the `LOG_WARN` the unsupported-bank path emits. -/
def reg_type_to_spv_storage_class (reg_type : USSE.RegisterBank) :
    StorageClass × List LogMsg :=
  match reg_type with
  | .TEMP => (.Function, [])
  | .PRIMATTR => (.Input, [])
  | .OUTPUT => (.Output, [])
  | .SECATTR => (.UniformConstant, [])
  | .FPINTERNAL => (.Private, [])
  | .SPECIAL | .GLOBAL | .FPCONSTANT | .IMMEDIATE | .INDEX | .INDEXED =>
    (.Max, [{ severity := .Warn, text := "Unsupported reg_type" }])
  | .MAXIMUM | .INVALID => (.Max, [])

/-- The state threaded through the allocator: the SPIR-V builder, the
`SpirvShaderParameters` banks and the emitted diagnostics. -/
structure RecompState where
  b : Builder
  params : SpirvShaderParameters
  logs : List LogMsg
deriving Repr

/-- Append one diagnostic. -/
def RecompState.log (st : RecompState) (severity : Severity)
    (text : String) : RecompState :=
  { st with logs := st.logs ++ [{ severity := severity, text := text }] }

/-- Modelled from the spec: `gxp::log_parameter` (gxm/functions.h, not in
scope) only reports the descriptor on the diagnostics channel. -/
def log_parameter (st : RecompState) (p : SceGxmProgramParameter) :
    RecompState :=
  st.log .Info ("parameter: " ++ p.name_raw)

/-- spirv_recompiler.cpp `create_variable(b, parameters, name, reg_type,
size, type)`: sanitizes the name, declares the SPIR-V variable, then
pushes a record into the bank selected by `reg_type`; an unsupported bank
warns and yields `spv::NoResult` (0) without pushing. -/
def create_variable (st : RecompState) (name : String)
    (reg_type : USSE.RegisterBank) (size : Nat) (type : SpvType) :
    RecompState × Nat :=
  let name := sanitize_variable_name name
  let scl := reg_type_to_spv_storage_class reg_type
  let st := { st with logs := st.logs ++ scl.2 }
  let bv := st.b.createVariable scl.1 type name
  let st := { st with b := bv.1 }
  let var_id := bv.2
  let p := st.params
  match reg_type with
  | .SECATTR =>
    ({ st with params :=
        { p with uniforms := p.uniforms.push ⟨type, var_id⟩ size } }, var_id)
  | .PRIMATTR =>
    ({ st with params :=
        { p with ins := p.ins.push ⟨type, var_id⟩ size } }, var_id)
  | .OUTPUT =>
    ({ st with params :=
        { p with outs := p.outs.push ⟨type, var_id⟩ size } }, var_id)
  | .TEMP =>
    ({ st with params :=
        { p with temps := p.temps.push ⟨type, var_id⟩ size } }, var_id)
  | .FPINTERNAL =>
    ({ st with params :=
        { p with internals := p.internals.push ⟨type, var_id⟩ size } }, var_id)
  | _ =>
    (st.log .Warn "Unsupported reg_type", 0)

end shader

namespace shader

/-- spirv_recompiler.cpp `get_type_fallback`: 32-bit float. -/
def get_type_fallback : SpvType :=
  SpvType.float 32

/-- spirv_recompiler.cpp `get_type_basic`: switch on
`gxp::parameter_type` (F16 is widened to a 32-bit float — f16 support is
absent); an unrecognised tag logs an error and falls back. -/
def get_type_basic (parameter : SceGxmProgramParameter) :
    SpvType × List LogMsg :=
  match parameter.param_type with
  | .F16 => (SpvType.float 32, [])
  | .F32 => (SpvType.float 32, [])
  | .U8 => (SpvType.uint 8, [])
  | .U16 => (SpvType.uint 16, [])
  | .U32 => (SpvType.uint 32, [])
  | .S8 => (SpvType.int 8, [])
  | .S16 => (SpvType.int 16, [])
  | .S32 => (SpvType.int 32, [])
  | .Other =>
    (get_type_fallback,
      [{ severity := .Error, text := "Unsupported parameter type used in shader." }])

/-- spirv_recompiler.cpp `create_array_if_needed`: disabled in the
source — the function returns `param_id` unconditionally before its
array-wrapping logic. -/
def create_array_if_needed (param_id : SpvType)
    (_parameter : SceGxmProgramParameter) (_explicit_array_size : Nat) :
    SpvType :=
  param_id

/-- spirv_recompiler.cpp `get_type_scalar`. -/
def get_type_scalar (parameter : SceGxmProgramParameter) :
    SpvType × List LogMsg :=
  let basic := get_type_basic parameter
  (create_array_if_needed basic.1 parameter 0, basic.2)

/-- spirv_recompiler.cpp `get_type_vector`: element type widened to a
vector of `component_count`. -/
def get_type_vector (parameter : SceGxmProgramParameter) :
    SpvType × List LogMsg :=
  let basic := get_type_basic parameter
  (SpvType.vector basic.1 parameter.component_count, basic.2)

/-- spirv_recompiler.cpp `get_type_matrix`: best-effort `N×N` matrix
reconstruction (`N = component_count`) when `component_count * array_size`
divides evenly by `N²`, else the vector fallback.  (`component_count = 0`
makes the C++ `%` a division by zero; this model follows Lean's
`Nat.mod`, whose 0-divisor result keeps the dividend, taking the matrix
branch only for `total = 0`.) -/
def get_type_matrix (parameter : SceGxmProgramParameter) :
    SpvType × List LogMsg :=
  let basic := get_type_basic parameter
  let total_type_size := parameter.component_count * parameter.array_size
  let matrix_size := parameter.component_count * parameter.component_count
  let matrix_array_size_leftover := total_type_size % matrix_size
  if matrix_array_size_leftover = 0 then
    (create_array_if_needed
      (SpvType.matrix basic.1 parameter.component_count parameter.component_count)
      parameter (total_type_size / matrix_size), basic.2)
  else
    get_type_vector parameter

/-- spirv_recompiler.cpp `get_param_type`: dispatch on
`gxp::parameter_generic_type`. -/
def get_param_type (parameter : SceGxmProgramParameter) :
    SpvType × List LogMsg :=
  match parameter.generic_type with
  | .Scalar => get_type_scalar parameter
  | .Vector => get_type_vector parameter
  | .Matrix => get_type_matrix parameter
  | .Other => (get_type_fallback, [])

/-- spirv_recompiler.cpp `StructDeclContext` (the source's field-name
typo `is_interaface_block` is kept). -/
structure StructDeclContext where
  name : String
  reg_type : USSE.RegisterBank
  field_ids : List SpvType
  field_names : List String
  is_interaface_block : Bool
deriving Repr

/-- The default-constructed context (also the result of `clear()`). -/
def StructDeclContext.init : StructDeclContext :=
  { name := "", reg_type := .INVALID, field_ids := [], field_names := [],
    is_interaface_block := false }

/-- `StructDeclContext::empty()`: true when no struct is open. -/
def StructDeclContext.empty (ctx : StructDeclContext) : Bool :=
  ctx.name = ""

/-- spirv_recompiler.cpp `create_struct`: asserts the id/name lists have
equal length (an `Except.error` models the `assert` abort), builds the
struct type, decorates interface blocks as `Block`, names the members in
order, creates the struct variable with nominal size 1, and clears the
context. -/
def create_struct (st : RecompState) (param_struct : StructDeclContext)
    (_program_type : SceGxmProgramType) :
    Except Unit (RecompState × StructDeclContext) := do
  if param_struct.field_ids.length ≠ param_struct.field_names.length then
    throw ()
  let struct_type_id := SpvType.structT param_struct.name param_struct.field_ids
  let st :=
    if param_struct.is_interaface_block then
      { st with b := { st.b with
          typeDecorations := st.b.typeDecorations ++ [(struct_type_id, .Block)] } }
    else st
  let st := (List.range param_struct.field_names.length).foldl
    (fun st field_index =>
      let field_name := param_struct.field_names.getD field_index ""
      { st with b := st.b.addMemberName struct_type_id field_index field_name })
    st
  let stv := create_variable st param_struct.name param_struct.reg_type 1
    struct_type_id
  pure (stv.1, StructDeclContext.init)

/-- spirv_recompiler.cpp `create_param_sampler`: a combined
image+sampler variable in the uniform bank with fixed nominal size 2. -/
def create_param_sampler (st : RecompState)
    (parameter : SceGxmProgramParameter) : RecompState × Nat :=
  let sampled_type := SpvType.float 32
  let image_type := SpvType.image sampled_type
  let sampled_image_type := SpvType.sampledImage image_type
  let name := parameter_name_raw parameter
  create_variable st name .SECATTR 2 sampled_image_type

end shader

namespace shader

/-- The shared `SCE_GXM_PARAMETER_CATEGORY_UNIFORM` /
`SCE_GXM_PARAMETER_CATEGORY_ATTRIBUTE` handling block of
`create_parameters` (the `case UNIFORM:` sets `param_reg_type` to
`SECATTR` and falls through into `case ATTRIBUTE:`). -/
def handle_attribute_uniform (program_type : SceGxmProgramType)
    (st : RecompState) (param_struct : StructDeclContext)
    (parameter : SceGxmProgramParameter)
    (param_reg_type : USSE.RegisterBank) :
    Except Unit (RecompState × StructDeclContext) := do
  let struct_name := parameter_struct_name parameter
  let is_struct_field := !struct_name.isEmpty
  let struct_decl_ended :=
    (!is_struct_field && !param_struct.empty) ||
      (is_struct_field && !param_struct.empty &&
        decide (param_struct.name ≠ struct_name))
  let stc ←
    if struct_decl_ended then create_struct st param_struct program_type
    else pure (st, param_struct)
  let st := stc.1
  let param_struct := stc.2
  let ptl := get_param_type parameter
  let param_type := ptl.1
  let st := { st with logs := st.logs ++ ptl.2 }
  let is_uniform := param_reg_type = USSE.RegisterBank.SECATTR
  let is_vertex_output :=
    param_reg_type = USSE.RegisterBank.OUTPUT ∧
      program_type = SceGxmProgramType.Vertex
  let is_fragment_input :=
    param_reg_type = USSE.RegisterBank.PRIMATTR ∧
      program_type = SceGxmProgramType.Fragment
  let can_be_interface_block := is_vertex_output ∨ is_fragment_input
  let st :=
    if is_struct_field ∧ is_uniform then
      st.log .Warn "Uniform structs not fully supported!"
    else st
  let can_be_struct := can_be_interface_block
  if is_struct_field ∧ can_be_struct then
    let param_field_name := parameter_name parameter
    pure (st,
      { param_struct with
        name := struct_name
        field_ids := param_struct.field_ids ++ [param_type]
        field_names := param_struct.field_names ++ [param_field_name]
        reg_type := param_reg_type
        is_interaface_block := decide can_be_interface_block })
  else
    let var_name :=
      if is_uniform then
        parameter_name parameter
      else
        let raw := parameter_name_raw parameter
        if is_struct_field then
          -- flatten struct: std::replace of '.' by '_'
          String.map (fun c => if c = '.' then '_' else c) raw
        else raw
    let st := (List.range parameter.array_size).foldl
      (fun st p =>
        let var_elem_name :=
          if parameter.array_size = 1 then var_name
          else var_name ++ "_" ++ toString p
        (create_variable st var_elem_name param_reg_type
          parameter.component_count param_type).1)
      st
    pure (st, param_struct)

/-- The body of the parameter loop of `create_parameters`, for one
descriptor: `gxp::log_parameter`, then the category switch.  The
`assert(parameter.component_count == 0)` of the auxiliary-surface and
uniform-buffer cases is modelled as an `Except.error` (process abort in
assert-enabled builds). -/
def handle_parameter (program_type : SceGxmProgramType)
    (acc : RecompState × StructDeclContext)
    (parameter : SceGxmProgramParameter) :
    Except Unit (RecompState × StructDeclContext) := do
  let st := log_parameter acc.1 parameter
  let param_struct := acc.2
  match parameter.category with
  | .Uniform =>
    handle_attribute_uniform program_type st param_struct parameter
      USSE.RegisterBank.SECATTR
  | .Attribute =>
    handle_attribute_uniform program_type st param_struct parameter
      USSE.RegisterBank.PRIMATTR
  | .Sampler =>
    pure ((create_param_sampler st parameter).1, param_struct)
  | .AuxiliarySurface => do
    if parameter.component_count ≠ 0 then
      throw ()
    pure (st.log .Critical "auxiliary_surface used in shader", param_struct)
  | .UniformBuffer => do
    if parameter.component_count ≠ 0 then
      throw ()
    pure (st.log .Critical "uniform_buffer used in shader", param_struct)
  | .Other =>
    pure (st.log .Critical "Unknown parameter type used in shader.",
      param_struct)

/-- The `vertex_properties_map` table of `create_vertex_outputs`, in
semantic-bit order (bit 0 = position). -/
def vertex_properties_map : List (String × Nat) :=
  [("out_Position", 4), ("out_Fog", 4), ("out_Color0", 4), ("out_Color1", 4),
   ("out_TexCoord0", 2), ("out_TexCoord1", 2), ("out_TexCoord2", 2),
   ("out_TexCoord3", 2), ("out_TexCoord4", 2), ("out_TexCoord5", 2),
   ("out_TexCoord6", 2), ("out_TexCoord7", 2), ("out_TexCoord8", 2),
   ("out_TexCoord9", 2), ("out_Psize", 1), ("out_Clip0", 4), ("out_Clip1", 4),
   ("out_Clip2", 4), ("out_Clip3", 4), ("out_Clip4", 4), ("out_Clip5", 4),
   ("out_Clip6", 4), ("out_Clip7", 4)]

/-- spirv_recompiler.cpp `create_vertex_outputs`: one OUTPUT variable per
active vertex-output semantic bit, each a float vector of the tabulated
component count; the position output is decorated as the built-in
position. -/
def create_vertex_outputs (program : SceGxmProgram) (st : RecompState) :
    RecompState :=
  (List.range vertex_properties_map.length).foldl
    (fun st k =>
      if program.vertex_outputs.testBit k then
        let properties := vertex_properties_map.getD k ("", 0)
        let out_type := SpvType.vector (SpvType.float 32) properties.2
        let stv := create_variable st properties.1 USSE.RegisterBank.OUTPUT
          properties.2 out_type
        if k = 0 then
          { stv.1 with b := stv.1.b.addDecoration stv.2 .BuiltInPosition }
        else stv.1
      else st)
    st

/-- The `vertex_properties_map` table of `create_fragment_inputs`, in
semantic-bit order (bit 0 = position). -/
def fragment_input_properties_map : List (String × Nat) :=
  [("in_Position", 4), ("in_Fog", 4), ("in_Color0", 4), ("in_Color1", 4),
   ("in_TexCoord0", 2), ("in_TexCoord1", 2), ("in_TexCoord2", 2),
   ("in_TexCoord3", 2), ("in_TexCoord4", 2), ("in_TexCoord5", 2),
   ("in_TexCoord6", 2), ("in_TexCoord7", 2), ("in_TexCoord8", 2),
   ("in_TexCoord9", 2), ("in_SpriteCoord", 2)]

/-- spirv_recompiler.cpp `create_fragment_inputs`: one PRIMATTR variable
per active fragment-input semantic bit. -/
def create_fragment_inputs (program : SceGxmProgram) (st : RecompState) :
    RecompState :=
  (List.range fragment_input_properties_map.length).foldl
    (fun st k =>
      if program.fragment_inputs.testBit k then
        let properties := fragment_input_properties_map.getD k ("", 0)
        let in_type := SpvType.vector (SpvType.float 32) properties.2
        (create_variable st properties.1 USSE.RegisterBank.PRIMATTR
          properties.2 in_type).1
      else st)
    st

/-- spirv_recompiler.cpp `create_fragment_output`: the mandatory
4-component `out_color` OUTPUT variable, decorated with location 0 —
`create_variable` has already pushed its bank record, and the function
then pushes the same record a second time. -/
def create_fragment_output (st : RecompState) : RecompState :=
  let frag_color_name := "out_color"
  let frag_color_type := SpvType.vector (SpvType.float 32) 4
  let stv := create_variable st frag_color_name USSE.RegisterBank.OUTPUT 4
    frag_color_type
  let st := stv.1
  let frag_color_var := stv.2
  let st := { st with b := st.b.addDecoration frag_color_var (.Location 0) }
  { st with params :=
      { st.params with
          outs := st.params.outs.push ⟨frag_color_type, frag_color_var⟩ 4 } }

/-- The "Create temp reg vars" loop of `create_parameters`:
`temp_reg_count1` four-component float TEMP variables `r0`, `r1`, …. -/
def create_temp_regs (program : SceGxmProgram) (st : RecompState) :
    RecompState :=
  (List.range program.temp_reg_count1).foldl
    (fun st i =>
      let name := "r" ++ toString i
      let type := SpvType.vector (SpvType.float 32) 4
      (create_variable st name USSE.RegisterBank.TEMP 4 type).1)
    st

/-- The "Create internal reg vars" loop of `create_parameters`: exactly 3
FPINTERNAL variables `i0`, `i1`, `i2`, pushed with size 16 (the registers
are 128 bits long). -/
def create_internal_regs (st : RecompState) : RecompState :=
  (List.range 3).foldl
    (fun st i =>
      let name := "i" ++ toString i
      let type := SpvType.vector (SpvType.float 32) 4
      (create_variable st name USSE.RegisterBank.FPINTERNAL 16 type).1)
    st

/-- The final non-native-color block of `create_parameters`:
`missing_primary_attrs = program.primary_reg_count - spv_params.ins.size()`
in `size_t` arithmetic; more than 2 missing slots only logs an error,
1–2 missing slots synthesize the single `pa0_blend` padding input of
`missing_primary_attrs * 2` components. -/
def add_blend_padding (program : SceGxmProgram) (st : RecompState) :
    RecompState :=
  if program.program_type = SceGxmProgramType.Fragment ∧
      ¬program.native_color then
    let missing_primary_attrs :=
      (program.primary_reg_count + 2 ^ 64 - st.params.ins.size) % 2 ^ 64
    if missing_primary_attrs > 2 then
      st.log .Error "missing primary attrs are > 2"
    else if missing_primary_attrs > 0 then
      let pa_type :=
        SpvType.vector (SpvType.float 32) (missing_primary_attrs * 2)
      (create_variable st "pa0_blend" USSE.RegisterBank.PRIMATTR
        (missing_primary_attrs * 2) pa_type).1
    else st
  else st

/-- spirv_recompiler.cpp `create_parameters(b, program, program_type)`:
the parameter loop, the end-of-list struct flush, the stage-mandated
input/output synthesis, the temp and internal register variables, and the
non-native-color padding.  `Except.error ()` models an `assert` abort. -/
def create_parameters (b : Builder) (program : SceGxmProgram)
    (program_type : SceGxmProgramType) : Except Unit RecompState := do
  let st0 : RecompState :=
    { b := b, params := SpirvShaderParameters.empty, logs := [] }
  let stc ← program.parameters.foldlM (handle_parameter program_type)
    (st0, StructDeclContext.init)
  let stc ←
    if !stc.2.empty then create_struct stc.1 stc.2 program_type
    else pure stc
  let st := stc.1
  let st :=
    if program_type = SceGxmProgramType.Vertex then
      create_vertex_outputs program st
    else if program_type = SceGxmProgramType.Fragment then
      create_fragment_output (create_fragment_inputs program st)
    else st
  let st := create_temp_regs program st
  let st := create_internal_regs st
  pure (add_blend_padding program st)

end shader

/-! ## Theorems settling the claims -/

/-- C9: for every 3-channel swizzle `sw`, `to_swizzle4 sw` is the
4-channel swizzle `{sw[0], sw[1], sw[2], X}`: the first three channels
are preserved unchanged and the fourth is always the X selection. -/
theorem C9_to_swizzle4_appends_X (sw : USSE.Swizzle3) :
    USSE.to_swizzle4 sw =
      { c0 := sw.c0, c1 := sw.c1, c2 := sw.c2,
        c3 := USSE.SwizzleChannel.X } :=
  rfl

set_option maxRecDepth 8192
set_option maxHeartbeats 2000000

/-- C2: for every 4-channel swizzle and every active length `n` in 1..4,
`is_default sw n` is true iff channel `i` equals the identity channel
(X, Y, Z, W) for every `i < n`; the top-down fallthrough scan never stops
early, so a mismatch at channel 0 makes the result non-default even when
channel 3 matches. -/
theorem C2_is_default_iff_identity (sw : USSE.Swizzle4) (n : Nat)
    (h1 : 1 ≤ n) (h2 : n ≤ 4) :
    USSE.is_default sw n = true ↔
      ∀ i, i < n → sw.get i = USSE.identityChannel i := by
  obtain ⟨c0, c1, c2, c3⟩ := sw
  interval_cases n <;> revert c0 c1 c2 c3 <;> decide
set_option maxRecDepth 512
set_option maxHeartbeats 200000

/-- Witness for C2, at a swizzle whose channel 0 differs from X while
channel 3 matches W, with active length 4: the scan reports
non-default. -/
theorem C2_is_default_iff_identity_witness :
    1 ≤ 4 ∧ 4 ≤ 4 ∧
      (USSE.is_default
          { c0 := USSE.SwizzleChannel.Y, c1 := USSE.SwizzleChannel.Y,
            c2 := USSE.SwizzleChannel.Z, c3 := USSE.SwizzleChannel.W } 4
        = true ↔
        ∀ i, i < 4 →
          USSE.Swizzle4.get
            { c0 := USSE.SwizzleChannel.Y, c1 := USSE.SwizzleChannel.Y,
              c2 := USSE.SwizzleChannel.Z, c3 := USSE.SwizzleChannel.W } i
            = USSE.identityChannel i) :=
  ⟨by decide, by decide,
    C2_is_default_iff_identity
      { c0 := USSE.SwizzleChannel.Y, c1 := USSE.SwizzleChannel.Y,
        c2 := USSE.SwizzleChannel.Z, c3 := USSE.SwizzleChannel.W } 4
      (by decide) (by decide)⟩

/-- C10: for every 4-channel swizzle and every active-length argument
outside 1..4 (`n = 0`, or `5 ≤ n < 256` — `Imm4` is a `uint8_t`), no
switch case matches, so `is_default` keeps its initial `true` result
regardless of the swizzle contents. -/
theorem C10_is_default_out_of_range (sw : USSE.Swizzle4) (n : Nat)
    (hbyte : n < 256) (hout : n = 0 ∨ 5 ≤ n) :
    USSE.is_default sw n = true := by
  unfold USSE.is_default
  split
  · rcases hout with h | h <;> omega
  · rcases hout with h | h <;> omega
  · rcases hout with h | h <;> omega
  · rcases hout with h | h <;> omega
  · rfl

/-- Witness for C10 at `n = 5` and a fully non-identity swizzle. -/
theorem C10_is_default_out_of_range_witness :
    (5 < 256 ∧ (5 = 0 ∨ 5 ≤ 5)) ∧
      USSE.is_default
        { c0 := USSE.SwizzleChannel.W, c1 := USSE.SwizzleChannel.zero,
          c2 := USSE.SwizzleChannel.half,
          c3 := USSE.SwizzleChannel.UNDEFINED } 5 = true :=
  ⟨⟨by decide, Or.inr (by decide)⟩,
    C10_is_default_out_of_range
      { c0 := USSE.SwizzleChannel.W, c1 := USSE.SwizzleChannel.zero,
        c2 := USSE.SwizzleChannel.half,
        c3 := USSE.SwizzleChannel.UNDEFINED } 5
      (by decide) (Or.inr (by decide))⟩

/-- C4: in a bank built from empty by three pushes of sizes 4, 2, 1,
`find_reg_at 5` succeeds with the second pushed record (offset 4,
size 2) at component offset 1, and `find_reg_at 7` fails (out of
range). -/
theorem C4_find_reg_at_sizes_4_2_1 (v1 v2 v3 : shader.SpirvVar) :
    ((((shader.SpirvVarRegBank.empty.push v1 4).push v2 2).push v3 1).find_reg_at 5
        = some ({ type_id := v2.type_id, var_id := v2.var_id,
                  offset := 4, size := 2 }, 1))
    ∧ (((shader.SpirvVarRegBank.empty.push v1 4).push v2 2).push v3 1).find_reg_at 7
        = none := by
  constructor <;> rfl

namespace shader

/-- A sequence of `push` operations applied to the default-constructed
empty bank. -/
def applyPushes (pushes : List (SpirvVar × Nat)) : SpirvVarRegBank :=
  pushes.foldl (fun bank pv => bank.push pv.1 pv.2) SpirvVarRegBank.empty

/-- Total size of a push sequence. -/
def totalPushSize (pushes : List (SpirvVar × Nat)) : Nat :=
  (pushes.map (fun pv => pv.2)).sum

/-- Record offsets of a bank are monotonically increasing. -/
def offsetsMonotone (bank : SpirvVarRegBank) : Prop :=
  bank.vars.Pairwise (fun a b => a.offset ≤ b.offset)

/-- The `[offset, offset + size)` ranges of distinct records of a bank do
not overlap. -/
def rangesDisjoint (bank : SpirvVarRegBank) : Prop :=
  bank.vars.Pairwise
    (fun a b => a.offset + a.size ≤ b.offset ∨ b.offset + b.size ≤ a.offset)

/-- Helper: `foldl` accumulation of record sizes is addition of their
sum. -/
lemma foldl_add_size (l : List SpirvReg) :
    ∀ n : Nat, l.foldl (fun acc var => acc + var.size) n
      = n + (l.map (fun r => r.size)).sum := by
  induction l with
  | nil => intro n; simp
  | cons r rest ih => intro n; simp [ih, Nat.add_assoc]

/-- Helper: the record sizes of a fold of pushes are the starting bank's
record sizes followed by the pushed sizes. -/
lemma foldl_push_sizes (pushes : List (SpirvVar × Nat)) :
    ∀ bank : SpirvVarRegBank,
      ((pushes.foldl (fun bank pv => bank.push pv.1 pv.2) bank).vars.map
          (fun r => r.size))
        = bank.vars.map (fun r => r.size) ++ pushes.map (fun pv => pv.2) := by
  induction pushes with
  | nil => intro bank; simp
  | cons pv rest ih =>
    intro bank
    rw [List.foldl_cons, ih]
    simp [SpirvVarRegBank.push]

/-- Helper: as long as the running offset cannot wrap, a fold of pushes
preserves the bank invariants (offset accumulator = sum of sizes, all
record ranges below the accumulator, monotone offsets, disjoint
ranges). -/
lemma foldl_push_inv (pushes : List (SpirvVar × Nat)) :
    ∀ bank : SpirvVarRegBank,
      bank.next_offset = (bank.vars.map (fun r => r.size)).sum →
      (∀ r ∈ bank.vars, r.offset + r.size ≤ bank.next_offset) →
      offsetsMonotone bank → rangesDisjoint bank →
      bank.next_offset + totalPushSize pushes < 2 ^ 32 →
      ((pushes.foldl (fun bank pv => bank.push pv.1 pv.2) bank).next_offset
          = (((pushes.foldl (fun bank pv => bank.push pv.1 pv.2) bank).vars.map
              (fun r => r.size)).sum)) ∧
      (∀ r ∈ (pushes.foldl (fun bank pv => bank.push pv.1 pv.2) bank).vars,
          r.offset + r.size
            ≤ (pushes.foldl (fun bank pv => bank.push pv.1 pv.2) bank).next_offset) ∧
      offsetsMonotone (pushes.foldl (fun bank pv => bank.push pv.1 pv.2) bank) ∧
      rangesDisjoint (pushes.foldl (fun bank pv => bank.push pv.1 pv.2) bank) := by
  induction pushes with
  | nil =>
    intro bank h1 h2 h3 h4 _
    exact ⟨h1, h2, h3, h4⟩
  | cons pv rest ih =>
    intro bank h1 h2 h3 h4 hbound
    have e32 : (2 : Nat) ^ 32 = 4294967296 := by norm_num
    rw [e32] at hbound
    have hts : totalPushSize (pv :: rest) = pv.2 + totalPushSize rest := by
      simp [totalPushSize]
    have hnowrap : bank.next_offset + pv.2 < 4294967296 := by omega
    have hnext : (bank.push pv.1 pv.2).next_offset = bank.next_offset + pv.2 := by
      show (bank.next_offset + pv.2) % 2 ^ 32 = bank.next_offset + pv.2
      rw [Nat.mod_eq_of_lt]
      rw [e32]
      omega
    have hvars : (bank.push pv.1 pv.2).vars
        = bank.vars ++ [{ type_id := pv.1.type_id, var_id := pv.1.var_id,
                          offset := bank.next_offset, size := pv.2 }] := rfl
    simp only [List.foldl_cons]
    refine ih (bank.push pv.1 pv.2) ?_ ?_ ?_ ?_ ?_
    · rw [hnext, hvars]
      simp [h1]
    · intro r hr
      rw [hvars] at hr
      rcases List.mem_append.mp hr with h | h
      · have := h2 r h
        rw [hnext]
        omega
      · simp only [List.mem_singleton] at h
        subst h
        simp [hnext]
    · rw [offsetsMonotone, hvars]
      rw [List.pairwise_append]
      refine ⟨h3, List.pairwise_singleton _ _, ?_⟩
      intro a ha b hb
      simp only [List.mem_singleton] at hb
      subst hb
      have := h2 a ha
      simp only
      omega
    · rw [rangesDisjoint, hvars]
      rw [List.pairwise_append]
      refine ⟨h4, List.pairwise_singleton _ _, ?_⟩
      intro a ha b hb
      simp only [List.mem_singleton] at hb
      subst hb
      have := h2 a ha
      left
      simp only
      omega
    · rw [hnext, e32]
      omega

end shader

/-- C5 (amended): in every bank reachable from the empty bank by a push
sequence whose total size stays below `2^32` (so the `uint32_t` offset
accumulator cannot wrap), record offsets are monotonically increasing,
the `[offset, offset+size)` ranges of distinct records do not overlap,
and `size()` equals the sum of all record sizes. -/
theorem C5_bank_invariants (pushes : List (shader.SpirvVar × Nat))
    (h : shader.totalPushSize pushes < 2 ^ 32) :
    shader.offsetsMonotone (shader.applyPushes pushes) ∧
    shader.rangesDisjoint (shader.applyPushes pushes) ∧
    (shader.applyPushes pushes).size
      = ((shader.applyPushes pushes).vars.map (fun r => r.size)).sum := by
  have hempty : shader.SpirvVarRegBank.empty.next_offset
      + shader.totalPushSize pushes < 2 ^ 32 := by
    simpa [shader.SpirvVarRegBank.empty] using h
  have hinv := shader.foldl_push_inv pushes shader.SpirvVarRegBank.empty
    (by simp [shader.SpirvVarRegBank.empty])
    (by simp [shader.SpirvVarRegBank.empty])
    (by simp [shader.offsetsMonotone, shader.SpirvVarRegBank.empty])
    (by simp [shader.rangesDisjoint, shader.SpirvVarRegBank.empty])
    hempty
  refine ⟨hinv.2.2.1, hinv.2.2.2, ?_⟩
  have hsizes := shader.foldl_push_sizes pushes shader.SpirvVarRegBank.empty
  have hsum : ((shader.applyPushes pushes).vars.map (fun r => r.size)).sum
      = shader.totalPushSize pushes := by
    rw [shader.applyPushes, hsizes]
    simp [shader.SpirvVarRegBank.empty, shader.totalPushSize]
  rw [shader.SpirvVarRegBank.size, shader.foldl_add_size, Nat.zero_add,
    Nat.mod_eq_of_lt]
  rw [hsum]
  exact lt_trans h (by norm_num)

/-- Witness for C5 at the push sequence with sizes 4 and 2. -/
theorem C5_bank_invariants_witness :
    shader.totalPushSize
        [(⟨shader.SpvType.float 32, 1⟩, 4), (⟨shader.SpvType.float 32, 2⟩, 2)]
      < 2 ^ 32 ∧
    (shader.offsetsMonotone (shader.applyPushes
        [(⟨shader.SpvType.float 32, 1⟩, 4), (⟨shader.SpvType.float 32, 2⟩, 2)]) ∧
     shader.rangesDisjoint (shader.applyPushes
        [(⟨shader.SpvType.float 32, 1⟩, 4), (⟨shader.SpvType.float 32, 2⟩, 2)]) ∧
     (shader.applyPushes
        [(⟨shader.SpvType.float 32, 1⟩, 4), (⟨shader.SpvType.float 32, 2⟩, 2)]).size
       = ((shader.applyPushes
        [(⟨shader.SpvType.float 32, 1⟩, 4), (⟨shader.SpvType.float 32, 2⟩, 2)]).vars.map
          (fun r => r.size)).sum) :=
  ⟨by decide,
    C5_bank_invariants
      [(⟨shader.SpvType.float 32, 1⟩, 4), (⟨shader.SpvType.float 32, 2⟩, 2)]
      (by decide)⟩

/-- Counterexample for C5 as stated: with pushes of sizes `2^31`, `2^31`
and 4 the `uint32_t` offset accumulator wraps to 0, so the third record's
offset falls back to 0 — offsets are not monotonically increasing and the
first and third records overlap. -/
theorem C5_counterexample_offset_wrap :
    ¬ (shader.offsetsMonotone (shader.applyPushes
          [(⟨shader.SpvType.float 32, 1⟩, 2 ^ 31),
           (⟨shader.SpvType.float 32, 1⟩, 2 ^ 31),
           (⟨shader.SpvType.float 32, 1⟩, 4)]) ∧
       shader.rangesDisjoint (shader.applyPushes
          [(⟨shader.SpvType.float 32, 1⟩, 2 ^ 31),
           (⟨shader.SpvType.float 32, 1⟩, 2 ^ 31),
           (⟨shader.SpvType.float 32, 1⟩, 4)])) := by
  unfold shader.offsetsMonotone shader.rangesDisjoint
  decide

/-- The minimal fragment program of C1: zero parameters, native-color
true, `temp_reg_count1 = 0`, no active fragment-input semantic bits. -/
def c1_minimal_fragment_program : shader.SceGxmProgram :=
  { program_type := .Fragment, parameters := [], temp_reg_count1 := 0,
    primary_reg_count := 0, native_color := true, vertex_outputs := 0,
    fragment_inputs := 0 }

/-- Counterexample for C1 as stated: on the minimal fragment program the
OUTPUT bank receives the mandatory color output's record twice (once from
`create_variable`, once from the explicit push in
`create_fragment_output`), so it contains two records, not exactly
one. -/
theorem C1_counterexample_outs_has_two_records :
    (shader.create_parameters shader.Builder.init c1_minimal_fragment_program
        .Fragment).map (fun st => st.params.outs.vars.length) = Except.ok 2
    ∧ (Except.ok 2 : Except Unit Nat) ≠ Except.ok 1 := by
  refine ⟨rfl, ?_⟩
  simp

/-- C1 (amended): on the minimal fragment program (zero parameters,
native-color, no temps) exactly one OUTPUT variable is created — the
4-component `out_color` bound to location 0 — but its record enters the
OUTPUT bank twice (offsets 0 and 4); the PRIMARY-ATTRIBUTE bank stays
empty (no fragment-input semantic bits are active), and the only further
variables are the three internal-register ones. -/
theorem C1_minimal_fragment_allocation :
    (shader.create_parameters shader.Builder.init c1_minimal_fragment_program
        .Fragment).map
      (fun st =>
        (st.params.outs.vars.map (fun r => (r.var_id, r.offset, r.size)),
         st.params.ins.vars,
         st.b.varDecls.map (fun v => (v.1, v.2.1, v.2.2.1)),
         st.b.decorations))
    = Except.ok
        ([(1, 0, 4), (1, 4, 4)],
         [],
         [(1, "out_color", .Output), (2, "i0", .Private), (3, "i1", .Private),
          (4, "i2", .Private)],
         [(1, .Location 0)]) := rfl

/-- The C3 program: a single auxiliary-surface parameter with non-zero
`component_count`. -/
def c3_aux_surface_program : shader.SceGxmProgram :=
  { program_type := .Fragment,
    parameters := [
      { category := .AuxiliarySurface, name_raw := "aux_surface",
        component_count := 1, array_size := 1, param_type := .F32,
        generic_type := .Scalar }],
    temp_reg_count1 := 0, primary_reg_count := 0, native_color := true,
    vertex_outputs := 0, fragment_inputs := 0 }

/-- Counterexample for C3 as stated: an auxiliary-surface parameter with
`component_count = 1` fails the `assert(parameter.component_count == 0)`
— in assert-enabled builds the process aborts, so recompilation does not
continue. -/
theorem C3_counterexample_assert_aborts :
    shader.create_parameters shader.Builder.init c3_aux_surface_program
      .Fragment = Except.error () := rfl

/-- C3 (amended): a parameter of category AUXILIARY-SURFACE or
UNIFORM-BUFFER whose `component_count` is zero only emits a critical
diagnostic; no variable is allocated for it, the banks and the builder
are untouched, and processing of the remaining parameters continues
normally.  (A non-zero `component_count` instead fails the `assert`.) -/
theorem C3_unsupported_category_skipped
    (program_type : shader.SceGxmProgramType) (st : shader.RecompState)
    (ctx : shader.StructDeclContext) (p : shader.SceGxmProgramParameter)
    (hcat : p.category = .AuxiliarySurface ∨ p.category = .UniformBuffer)
    (hcc : p.component_count = 0) :
    shader.handle_parameter program_type (st, ctx) p
      = Except.ok
          ((shader.log_parameter st p).log .Critical
            (if p.category = shader.ParameterCategory.AuxiliarySurface then
              "auxiliary_surface used in shader"
            else "uniform_buffer used in shader"), ctx) := by
  rcases hcat with h | h <;>
    · simp [shader.handle_parameter, h, hcc]
      rfl

/-- Witness for C3 at a concrete auxiliary-surface parameter with
`component_count = 0` in the initial state. -/
theorem C3_unsupported_category_skipped_witness :
    (shader.SceGxmProgramParameter.category
          { category := .AuxiliarySurface, name_raw := "aux_surface",
            component_count := 0, array_size := 1, param_type := .F32,
            generic_type := .Scalar }
        = .AuxiliarySurface ∨
      shader.SceGxmProgramParameter.category
          { category := .AuxiliarySurface, name_raw := "aux_surface",
            component_count := 0, array_size := 1, param_type := .F32,
            generic_type := .Scalar }
        = .UniformBuffer) ∧
    shader.handle_parameter .Fragment
        ({ b := shader.Builder.init, params := shader.SpirvShaderParameters.empty,
           logs := [] }, shader.StructDeclContext.init)
        { category := .AuxiliarySurface, name_raw := "aux_surface",
          component_count := 0, array_size := 1, param_type := .F32,
          generic_type := .Scalar }
      = Except.ok
          ((shader.log_parameter
              { b := shader.Builder.init,
                params := shader.SpirvShaderParameters.empty, logs := [] }
              { category := .AuxiliarySurface, name_raw := "aux_surface",
                component_count := 0, array_size := 1, param_type := .F32,
                generic_type := .Scalar }).log .Critical
            (if shader.SceGxmProgramParameter.category
                  { category := .AuxiliarySurface, name_raw := "aux_surface",
                    component_count := 0, array_size := 1, param_type := .F32,
                    generic_type := .Scalar }
                = shader.ParameterCategory.AuxiliarySurface then
              "auxiliary_surface used in shader"
            else "uniform_buffer used in shader"),
            shader.StructDeclContext.init) :=
  ⟨Or.inl rfl,
    C3_unsupported_category_skipped .Fragment
      { b := shader.Builder.init, params := shader.SpirvShaderParameters.empty,
        logs := [] }
      shader.StructDeclContext.init
      { category := .AuxiliarySurface, name_raw := "aux_surface",
        component_count := 0, array_size := 1, param_type := .F32,
        generic_type := .Scalar }
      (Or.inl rfl) rfl⟩

/-- The struct type built for C8's two `Light.*` fields. -/
def c8_light_struct_type : shader.SpvType :=
  shader.SpvType.structT "Light"
    [shader.SpvType.vector (shader.SpvType.float 32) 4,
     shader.SpvType.float 32]

/-- The C8 program: two consecutive attribute parameters sharing the
struct prefix `Light`, in a fragment program (PRIMATTR is
fragment-input eligible). -/
def c8_struct_program : shader.SceGxmProgram :=
  { program_type := .Fragment,
    parameters := [
      { category := .Attribute, name_raw := "Light.color",
        component_count := 4, array_size := 1, param_type := .F32,
        generic_type := .Vector },
      { category := .Attribute, name_raw := "Light.intensity",
        component_count := 1, array_size := 1, param_type := .F32,
        generic_type := .Scalar }],
    temp_reg_count1 := 0, primary_reg_count := 0, native_color := true,
    vertex_outputs := 0, fragment_inputs := 0 }

/-- C8: allocating the two consecutive `Light.color`, `Light.intensity`
fragment-input parameters produces exactly one struct variable `Light` in
the PRIMARY-ATTRIBUTE bank — its member names `color`, `intensity` appear
in declaration order and it is decorated as an interface `Block` — and no
standalone variables for the two fields (the only other variables are the
mandatory color output and the three internals). -/
theorem C8_struct_fields_grouped :
    (shader.create_parameters shader.Builder.init c8_struct_program
        .Fragment).map
      (fun st =>
        (st.params.ins.vars.map (fun r => (r.var_id, r.size, r.type_id)),
         st.b.varDecls.map (fun v => (v.1, v.2.1, v.2.2.1)),
         st.b.memberNames,
         st.b.typeDecorations))
    = Except.ok
        ([(1, 1, c8_light_struct_type)],
         [(1, "Light", .Input), (2, "out_color", .Output), (3, "i0", .Private),
          (4, "i1", .Private), (5, "i2", .Private)],
         [(c8_light_struct_type, 0, "color"), (c8_light_struct_type, 1, "intensity")],
         [(c8_light_struct_type, .Block)]) := rfl

example (a : String) : (a ++ "_" ++ toString 0) ≠ (a ++ "_" ++ toString 1) := by
  intro h
  have hd := congrArg String.data h
  simp [String.data_append] at hd
  revert hd
  decide

namespace shader

/-- Helper: `create_variable` on the PRIMARY-ATTRIBUTE bank, spelled
out. -/
lemma create_variable_primattr (st : RecompState) (name : String)
    (size : Nat) (type : SpvType) :
    create_variable st name .PRIMATTR size type
      = ({ st with
            b := (st.b.createVariable .Input type
              (sanitize_variable_name name)).1
            params := { st.params with
              ins := st.params.ins.push ⟨type, st.b.nextId⟩ size } },
          st.b.nextId) := by
  simp [create_variable, reg_type_to_spv_storage_class, Builder.createVariable]

/-- Helper: `create_variable` on the SECONDARY-ATTRIBUTE (uniform) bank,
spelled out. -/
lemma create_variable_secattr (st : RecompState) (name : String)
    (size : Nat) (type : SpvType) :
    create_variable st name .SECATTR size type
      = ({ st with
            b := (st.b.createVariable .UniformConstant type
              (sanitize_variable_name name)).1
            params := { st.params with
              uniforms := st.params.uniforms.push ⟨type, st.b.nextId⟩ size } },
          st.b.nextId) := by
  simp [create_variable, reg_type_to_spv_storage_class, Builder.createVariable]

end shader

namespace shader

/-- Helper: for a parameter without a struct-qualifying dotted name,
processed with no open struct context, the shared attribute/uniform block
just allocates one variable per array element (no struct bookkeeping),
under the element-naming scheme of the source. -/
lemma handle_attribute_uniform_no_struct
    (program_type : SceGxmProgramType) (st : RecompState)
    (ctx : StructDeclContext) (p : SceGxmProgramParameter)
    (rb : USSE.RegisterBank)
    (hnd : splitAtDot p.name_raw.data = none) (hctx : ctx.name = "") :
    handle_attribute_uniform program_type st ctx p rb
      = Except.ok
          ((List.range p.array_size).foldl
            (fun st k =>
              (create_variable st
                (if p.array_size = 1 then p.name_raw
                 else p.name_raw ++ "_" ++ toString k)
                rb p.component_count (get_param_type p).1).1)
            { st with logs := st.logs ++ (get_param_type p).2 }, ctx) := by
  have hsn : parameter_struct_name p = "" := by
    simp [parameter_struct_name, hnd]
  have hpn : parameter_name p = p.name_raw := by
    simp [parameter_name, hnd]
  have hempty : ctx.empty = true := by
    simp [StructDeclContext.empty, hctx]
  have hie : "".isEmpty = true := rfl
  simp [handle_attribute_uniform, hsn, hpn, hempty, parameter_name_raw, hie]
  rfl

end shader

theorem C7_array_parameter_expansion
    (program_type : shader.SceGxmProgramType) (st st2 : shader.RecompState)
    (ctx ctx2 : shader.StructDeclContext)
    (p q : shader.SceGxmProgramParameter)
    (hcatp : p.category = .Attribute ∨ p.category = .Uniform)
    (hcatq : q.category = .Attribute ∨ q.category = .Uniform)
    (harrp : p.array_size = 3) (harrq : q.array_size = 1)
    (hndp : shader.splitAtDot p.name_raw.data = none)
    (hndq : shader.splitAtDot q.name_raw.data = none)
    (hctx : ctx.name = "") (hctx2 : ctx2.name = "")
    (hs : ∀ k, k < 3 →
      shader.sanitize_variable_name (p.name_raw ++ "_" ++ toString k)
        = p.name_raw ++ "_" ++ toString k) :
    (p.name_raw ++ "_" ++ toString 0 ≠ p.name_raw ++ "_" ++ toString 1) ∧
    (p.name_raw ++ "_" ++ toString 0 ≠ p.name_raw ++ "_" ++ toString 2) ∧
    (p.name_raw ++ "_" ++ toString 1 ≠ p.name_raw ++ "_" ++ toString 2) ∧
    ((shader.handle_parameter program_type (st, ctx) p).map
        (fun r => (r.1.b.varDecls, r.2))
      = Except.ok
          (st.b.varDecls ++
            [(st.b.nextId, p.name_raw ++ "_" ++ toString 0,
              if p.category = .Uniform then shader.StorageClass.UniformConstant
              else shader.StorageClass.Input, (shader.get_param_type p).1),
             (st.b.nextId + 1, p.name_raw ++ "_" ++ toString 1,
              if p.category = .Uniform then shader.StorageClass.UniformConstant
              else shader.StorageClass.Input, (shader.get_param_type p).1),
             (st.b.nextId + 2, p.name_raw ++ "_" ++ toString 2,
              if p.category = .Uniform then shader.StorageClass.UniformConstant
              else shader.StorageClass.Input, (shader.get_param_type p).1)],
           ctx)) ∧
    (p.category = .Attribute →
      (shader.handle_parameter program_type (st, ctx) p).map
          (fun r => (r.1.params.ins, r.1.params.uniforms))
        = Except.ok
            (((st.params.ins.push ⟨(shader.get_param_type p).1, st.b.nextId⟩
                  p.component_count).push
                ⟨(shader.get_param_type p).1, st.b.nextId + 1⟩
                p.component_count).push
              ⟨(shader.get_param_type p).1, st.b.nextId + 2⟩ p.component_count,
             st.params.uniforms)) ∧
    (p.category = .Uniform →
      (shader.handle_parameter program_type (st, ctx) p).map
          (fun r => (r.1.params.uniforms, r.1.params.ins))
        = Except.ok
            (((st.params.uniforms.push ⟨(shader.get_param_type p).1, st.b.nextId⟩
                  p.component_count).push
                ⟨(shader.get_param_type p).1, st.b.nextId + 1⟩
                p.component_count).push
              ⟨(shader.get_param_type p).1, st.b.nextId + 2⟩ p.component_count,
             st.params.ins)) ∧
    ((shader.handle_parameter program_type (st2, ctx2) q).map
        (fun r => (r.1.b.varDecls, r.2))
      = Except.ok
          (st2.b.varDecls ++
            [(st2.b.nextId, shader.sanitize_variable_name q.name_raw,
              if q.category = .Uniform then shader.StorageClass.UniformConstant
              else shader.StorageClass.Input, (shader.get_param_type q).1)],
           ctx2)) := by
  have hne01 : p.name_raw ++ "_" ++ toString 0 ≠ p.name_raw ++ "_" ++ toString 1 := by
    intro h
    have hd := congrArg String.data h
    simp [String.data_append] at hd
    revert hd
    decide
  have hne02 : p.name_raw ++ "_" ++ toString 0 ≠ p.name_raw ++ "_" ++ toString 2 := by
    intro h
    have hd := congrArg String.data h
    simp [String.data_append] at hd
    revert hd
    decide
  have hne12 : p.name_raw ++ "_" ++ toString 1 ≠ p.name_raw ++ "_" ++ toString 2 := by
    intro h
    have hd := congrArg String.data h
    simp [String.data_append] at hd
    revert hd
    decide
  have hr3 : List.range 3 = [0, 1, 2] := rfl
  have hr1 : List.range 1 = [0] := rfl
  have hplus : st.b.nextId + 1 + 1 = st.b.nextId + 2 := by omega
  refine ⟨hne01, hne02, hne12, ?_, ?_, ?_, ?_⟩
  · rcases hcatp with hc | hc <;>
      · simp only [shader.handle_parameter, hc]
        rw [shader.handle_attribute_uniform_no_struct _ _ _ _ _ hndp hctx]
        simp [harrp, hr3, shader.create_variable_primattr,
          shader.create_variable_secattr, shader.Builder.createVariable,
          shader.log_parameter, shader.RecompState.log,
          hs 0 (by norm_num), hs 1 (by norm_num), hs 2 (by norm_num), hc, hplus, Except.map]
  · intro hc
    simp only [shader.handle_parameter, hc]
    rw [shader.handle_attribute_uniform_no_struct _ _ _ _ _ hndp hctx]
    simp [harrp, hr3, shader.create_variable_primattr,
      shader.Builder.createVariable, shader.log_parameter, shader.RecompState.log,
      hs 0 (by norm_num), hs 1 (by norm_num), hs 2 (by norm_num), hplus, Except.map]
  · intro hc
    simp only [shader.handle_parameter, hc]
    rw [shader.handle_attribute_uniform_no_struct _ _ _ _ _ hndp hctx]
    simp [harrp, hr3, shader.create_variable_secattr,
      shader.Builder.createVariable, shader.log_parameter, shader.RecompState.log,
      hs 0 (by norm_num), hs 1 (by norm_num), hs 2 (by norm_num), hplus, Except.map]
  · rcases hcatq with hc | hc <;>
      · simp only [shader.handle_parameter, hc]
        rw [shader.handle_attribute_uniform_no_struct _ _ _ _ _ hndq hctx2]
        simp [harrq, hr1, shader.create_variable_primattr,
          shader.create_variable_secattr, shader.Builder.createVariable,
          shader.log_parameter, shader.RecompState.log, hc, hplus, Except.map]

/-- The C7 counterexample program: one attribute parameter named `a__b`
(consecutive underscores), `array_size = 1`, in a vertex program with no
active output bits. -/
def c7_sanitized_name_program : shader.SceGxmProgram :=
  { program_type := .Vertex,
    parameters := [
      { category := .Attribute, name_raw := "a__b", component_count := 4,
        array_size := 1, param_type := .F32, generic_type := .Vector }],
    temp_reg_count1 := 0, primary_reg_count := 0, native_color := true,
    vertex_outputs := 0, fragment_inputs := 0 }

/-- Counterexample for C7 as stated: the attribute parameter `a__b` with
`array_size = 1` is allocated under the name `a_b` —
`sanitize_variable_name` collapses the consecutive underscores — not
under its base name `a__b`. -/
theorem C7_counterexample_sanitized_name :
    (shader.create_parameters shader.Builder.init c7_sanitized_name_program
        .Vertex).map (fun st => st.b.varDecls.map (fun v => v.2.1))
      = Except.ok ["a_b", "i0", "i1", "i2"]
    ∧ "a_b" ≠ "a__b" := by
  refine ⟨rfl, ?_⟩
  decide

/-- C6: for a non-native-color fragment program with
`missing = primary_reg_count - ins.size()` (the bank not exceeding the
declared count, both within `size_t` range): if `missing` is 1 or 2,
exactly one extra `pa0_blend` padding input variable of `missing * 2`
components is synthesized; if `missing` is greater than 2, only an error
is logged and nothing is synthesized. -/
theorem C6_blend_padding_synthesis (program : shader.SceGxmProgram)
    (st : shader.RecompState) (m : Nat)
    (hf : program.program_type = .Fragment)
    (hn : program.native_color = false)
    (hc : program.primary_reg_count < 2 ^ 64)
    (hsz : st.params.ins.size ≤ program.primary_reg_count)
    (hm : m = program.primary_reg_count - st.params.ins.size) :
    ((1 ≤ m ∧ m ≤ 2) →
      (shader.add_blend_padding program st).params.ins
          = st.params.ins.push
              ⟨shader.SpvType.vector (shader.SpvType.float 32) (m * 2),
               st.b.nextId⟩ (m * 2)
        ∧ (shader.add_blend_padding program st).b.varDecls
          = st.b.varDecls ++
              [(st.b.nextId, "pa0_blend", shader.StorageClass.Input,
                shader.SpvType.vector (shader.SpvType.float 32) (m * 2))]
        ∧ (shader.add_blend_padding program st).logs = st.logs)
    ∧ (2 < m →
      (shader.add_blend_padding program st).params = st.params
        ∧ (shader.add_blend_padding program st).b = st.b
        ∧ (shader.add_blend_padding program st).logs
          = st.logs ++
              [{ severity := .Error,
                 text := "missing primary attrs are > 2" }]) := by
  have hslt : st.params.ins.size < 2 ^ 64 := by
    rw [shader.SpirvVarRegBank.size]
    exact Nat.mod_lt _ (by norm_num)
  have hmiss : (program.primary_reg_count + 2 ^ 64 - st.params.ins.size) % 2 ^ 64
      = m := by
    have hsplit : program.primary_reg_count + 2 ^ 64 - st.params.ins.size
        = (program.primary_reg_count - st.params.ins.size) + 2 ^ 64 := by
      omega
    rw [hsplit, Nat.add_mod_right, Nat.mod_eq_of_lt (by omega), hm]
  have hsan : shader.sanitize_variable_name "pa0_blend" = "pa0_blend" := rfl
  constructor
  · rintro ⟨h1, h2⟩
    simp only [shader.add_blend_padding, hf, hn, hmiss]
    rw [if_pos (by simp), if_neg (by omega), if_pos (by omega)]
    simp [shader.create_variable_primattr, hsan,
      shader.Builder.createVariable]
  · intro h3
    simp only [shader.add_blend_padding, hf, hn, hmiss]
    rw [if_pos (by simp), if_pos (by omega)]
    simp [shader.RecompState.log]

/-- The C6 witness program: non-native-color fragment program declaring
one primary register, with nothing else. -/
def c6_witness_program : shader.SceGxmProgram :=
  { program_type := .Fragment, parameters := [], temp_reg_count1 := 0,
    primary_reg_count := 1, native_color := false, vertex_outputs := 0,
    fragment_inputs := 0 }

/-- The pre-padding state used by the C6 witness. -/
def c6_witness_state : shader.RecompState :=
  { b := shader.Builder.init, params := shader.SpirvShaderParameters.empty,
    logs := [] }

/-- Witness for C6 at one missing primary-attribute slot: a single
2-component `pa0_blend` padding input is synthesized. -/
theorem C6_blend_padding_synthesis_witness :
    c6_witness_program.program_type = .Fragment ∧
    c6_witness_program.native_color = false ∧
    c6_witness_program.primary_reg_count < 2 ^ 64 ∧
    c6_witness_state.params.ins.size ≤ c6_witness_program.primary_reg_count ∧
    1 = c6_witness_program.primary_reg_count - c6_witness_state.params.ins.size ∧
    ((1 ≤ 1 ∧ 1 ≤ 2) →
      (shader.add_blend_padding c6_witness_program c6_witness_state).params.ins
          = c6_witness_state.params.ins.push
              ⟨shader.SpvType.vector (shader.SpvType.float 32) (1 * 2),
               c6_witness_state.b.nextId⟩ (1 * 2)
        ∧ (shader.add_blend_padding c6_witness_program c6_witness_state).b.varDecls
          = c6_witness_state.b.varDecls ++
              [(c6_witness_state.b.nextId, "pa0_blend",
                shader.StorageClass.Input,
                shader.SpvType.vector (shader.SpvType.float 32) (1 * 2))]
        ∧ (shader.add_blend_padding c6_witness_program c6_witness_state).logs
          = c6_witness_state.logs) ∧
    (2 < 1 →
      (shader.add_blend_padding c6_witness_program c6_witness_state).params
          = c6_witness_state.params
        ∧ (shader.add_blend_padding c6_witness_program c6_witness_state).b
          = c6_witness_state.b
        ∧ (shader.add_blend_padding c6_witness_program c6_witness_state).logs
          = c6_witness_state.logs ++
              [{ severity := .Error,
                 text := "missing primary attrs are > 2" }]) :=
  ⟨rfl, rfl, by decide, by decide, by decide,
    (C6_blend_padding_synthesis c6_witness_program c6_witness_state 1
      rfl rfl (by decide) (by decide) (by decide)).1,
    (C6_blend_padding_synthesis c6_witness_program c6_witness_state 1
      rfl rfl (by decide) (by decide) (by decide)).2⟩

/-- The C7 witness 3-element array attribute parameter. -/
def c7_witness_attr3 : shader.SceGxmProgramParameter :=
  { category := .Attribute, name_raw := "color", component_count := 4,
    array_size := 3, param_type := .F32, generic_type := .Vector }

/-- The C7 witness single-element attribute parameter. -/
def c7_witness_attr1 : shader.SceGxmProgramParameter :=
  { category := .Attribute, name_raw := "weight", component_count := 1,
    array_size := 1, param_type := .F32, generic_type := .Scalar }

/-- The initial allocation state used by the C7 witness. -/
def c7_witness_state : shader.RecompState :=
  { b := shader.Builder.init, params := shader.SpirvShaderParameters.empty,
    logs := [] }

/-- Witness for C7: the array parameter `color` with `array_size = 3`
yields the three distinct variables `color_0`, `color_1`, `color_2`, and
the parameter `weight` with `array_size = 1` yields the single variable
`weight`. -/
theorem C7_array_parameter_expansion_witness :
    (c7_witness_attr3.category = .Attribute ∨
      c7_witness_attr3.category = .Uniform) ∧
    c7_witness_attr3.array_size = 3 ∧
    c7_witness_attr1.array_size = 1 ∧
    shader.splitAtDot c7_witness_attr3.name_raw.data = none ∧
    shader.splitAtDot c7_witness_attr1.name_raw.data = none ∧
    (∀ k, k < 3 →
      shader.sanitize_variable_name (c7_witness_attr3.name_raw ++ "_" ++ toString k)
        = c7_witness_attr3.name_raw ++ "_" ++ toString k) ∧
    ((shader.handle_parameter .Fragment
          (c7_witness_state, shader.StructDeclContext.init) c7_witness_attr3).map
        (fun r => (r.1.b.varDecls, r.2))
      = Except.ok
          ([(1, "color_0", shader.StorageClass.Input,
             shader.SpvType.vector (shader.SpvType.float 32) 4),
            (2, "color_1", shader.StorageClass.Input,
             shader.SpvType.vector (shader.SpvType.float 32) 4),
            (3, "color_2", shader.StorageClass.Input,
             shader.SpvType.vector (shader.SpvType.float 32) 4)],
           shader.StructDeclContext.init)) ∧
    ((shader.handle_parameter .Fragment
          (c7_witness_state, shader.StructDeclContext.init) c7_witness_attr1).map
        (fun r => (r.1.b.varDecls, r.2))
      = Except.ok
          ([(1, "weight", shader.StorageClass.Input,
             shader.SpvType.float 32)],
           shader.StructDeclContext.init)) :=
  ⟨Or.inl rfl, rfl, rfl, rfl, rfl, by decide,
    by
      exact (C7_array_parameter_expansion .Fragment c7_witness_state
        c7_witness_state shader.StructDeclContext.init
        shader.StructDeclContext.init c7_witness_attr3 c7_witness_attr1
        (Or.inl rfl) (Or.inl rfl) rfl rfl rfl rfl rfl rfl
        (by decide)).2.2.2.1,
    by
      exact (C7_array_parameter_expansion .Fragment c7_witness_state
        c7_witness_state shader.StructDeclContext.init
        shader.StructDeclContext.init c7_witness_attr3 c7_witness_attr1
        (Or.inl rfl) (Or.inl rfl) rfl rfl rfl rfl rfl rfl
        (by decide)).2.2.2.2.2.2⟩
